import Mathlib

/-!
Shallow embedding of the microaxum user service core:
the data model and domain/storage mapping (src/db/models/users.rs),
the error classifier (src/error.rs), and the five user route handlers
(src/api/users/route.rs).  Effects are made explicit: the current time
(`jiff::Timestamp::now()`) is a parameter `now : Int` (epoch milliseconds),
the database is a list of rows passed in and returned, and connection-pool
acquisition is an `Except String Unit` parameter.
-/

namespace Microaxum

/-- Modelled from jiff: `Timestamp` spans -9999-01-02T01:59:59Z to
9999-12-30T22:00:00.999999999Z, so `Timestamp::from_millisecond` accepts
exactly the epoch-millisecond values in this range.  Lower bound in
milliseconds. -/
def jiffMinMillis : Int := -377705023201000

/-- Upper bound of jiff `Timestamp` in epoch milliseconds. -/
def jiffMaxMillis : Int := 253402207200999

/-- Modelled from jiff: `Timestamp::from_millisecond(m)` succeeds exactly
when `m` is within the representable range; we keep the timestamp as its
epoch-millisecond value. -/
def timestampFromMillisecond (m : Int) : Option Int :=
  if jiffMinMillis ≤ m ∧ m ≤ jiffMaxMillis then some m else none

/-- Modelled from jiff: the `Display` rendering of a `Timestamp` used by
`format!("dummy-user-{current_time}")`.  The exact rendering (RFC 3339 in
jiff) is irrelevant to every claim; what matters is that it is a function
of the current time, so we render the millisecond value. -/
def timestampDisplay (millis : Int) : String := toString millis

/-- Domain object `User` (src/db/models/users.rs lines 8-24).  Timestamps
are structured `jiff::Timestamp`s in Rust; here their epoch-millisecond
values. -/
structure User where
  id : String
  username : String
  first_name : Option String
  last_name : Option String
  created_at : Int
  updated_at : Int
deriving Repr, DecidableEq

/-- Create input `NewUser` (src/db/models/users.rs lines 26-41). -/
structure NewUser where
  username : String
  first_name : Option String
  last_name : Option String
  password : Option String
  created_at : Option Int
deriving Repr, DecidableEq

/-- Update input `UserUpdate` (src/db/models/users.rs lines 43-63).
`username` is a plain `Option`; `first_name` and `last_name` are
double options (serde_with double_option). -/
structure UserUpdate where
  username : Option String
  first_name : Option (Option String)
  last_name : Option (Option String)
deriving Repr, DecidableEq

/-- Storage row `UserRecord` (src/db/models/users.rs lines 65-75):
timestamps as integer epoch milliseconds. -/
structure UserRecord where
  id : String
  username : String
  first_name : Option String
  last_name : Option String
  updated_at : Int
  created_at : Int
deriving Repr, DecidableEq

/-- Update changeset `UserUpdateRecord` (src/db/models/users.rs lines
77-84), a diesel `AsChangeset`. -/
structure UserUpdateRecord where
  username : Option String
  first_name : Option (Option String)
  last_name : Option (Option String)
  updated_at : Option Int
deriving Repr, DecidableEq

/-- `impl From<UserRecord> for User` (src/db/models/users.rs lines 90-104).
The Rust code calls `Timestamp::from_millisecond(..).expect("Invalid
timestamp")` on both stored timestamps and panics if either is out of
range; `none` here models that panic. -/
def UserRecord.into_user (record : UserRecord) : Option User :=
  match timestampFromMillisecond record.created_at,
        timestampFromMillisecond record.updated_at with
  | some created_at, some updated_at =>
    some { id := record.id, username := record.username,
           first_name := record.first_name, last_name := record.last_name,
           updated_at := updated_at, created_at := created_at }
  | _, _ => none

/-- `impl IntoNewRecord for NewUser` (src/db/models/users.rs lines
106-122).  `now` is `Timestamp::now()`.  Note that the source reads
neither `self.password` nor `self.created_at`: both timestamps are the
stamp time and the id is derived from it. -/
def NewUser.into_new_record (self : NewUser) (now : Int) : UserRecord :=
  { id := "dummy-user-" ++ timestampDisplay now,
    username := self.username,
    first_name := self.first_name,
    last_name := self.last_name,
    created_at := now,
    updated_at := now }

/-- `impl From<UserUpdate> for UserUpdateRecord` (src/db/models/users.rs
lines 124-135).  `now` is `Timestamp::now()`. -/
def UserUpdate.into_update_record (user_update : UserUpdate) (now : Int) :
    UserUpdateRecord :=
  { username := user_update.username,
    first_name := user_update.first_name,
    last_name := user_update.last_name,
    updated_at := some now }

/-- Modelled from diesel's documented `AsChangeset` semantics for the
derive on `UserUpdateRecord`: an outer `None` field is skipped (the column
keeps its stored value), `Some v` assigns the column; for the
double-option columns `Some None` assigns SQL NULL and `Some (Some v)`
assigns `v`.  The changeset has no `created_at` field, so that column is
never touched. -/
def UserUpdateRecord.apply (c : UserUpdateRecord) (r : UserRecord) :
    UserRecord :=
  { id := r.id,
    username := match c.username with
      | none => r.username
      | some v => v,
    first_name := match c.first_name with
      | none => r.first_name
      | some v => v,
    last_name := match c.last_name with
      | none => r.last_name
      | some v => v,
    updated_at := match c.updated_at with
      | none => r.updated_at
      | some v => v,
    created_at := r.created_at }

/-! ## Error classifier (src/error.rs) -/

/-- The subset of `axum::http::StatusCode` constants the core uses, as
their numeric values. -/
def StatusCode.OK : Nat := 200

/-- 400 Bad Request. -/
def StatusCode.BAD_REQUEST : Nat := 400

/-- 404 Not Found. -/
def StatusCode.NOT_FOUND : Nat := 404

/-- 409 Conflict. -/
def StatusCode.CONFLICT : Nat := 409

/-- 422 Unprocessable Entity. -/
def StatusCode.UNPROCESSABLE_ENTITY : Nat := 422

/-- 500 Internal Server Error. -/
def StatusCode.INTERNAL_SERVER_ERROR : Nat := 500

/-- `diesel::result::DatabaseErrorKind` (the variants the classifier
distinguishes, plus a catch-all for the rest). -/
inductive DatabaseErrorKind where
  | UniqueViolation
  | ForeignKeyViolation
  | NotNullViolation
  | CheckViolation
  | ClosedConnection
  | Unknown
deriving Repr, DecidableEq

/-- `diesel::result::Error`: the variants `database_error` matches on
(`NotFound` and `DatabaseError`), plus a catch-all `Other` carrying the
display text for the remaining variants. -/
inductive DieselError where
  | DatabaseError (kind : DatabaseErrorKind) (message : String)
  | NotFound
  | Other (message : String)
deriving Repr, DecidableEq

/-- Modelled from diesel's `Display for Error`: `NotFound` renders as
"Record not found"; `DatabaseError` renders its message; the other
variants render their own text. -/
def DieselError.to_string : DieselError → String
  | .DatabaseError _ message => message
  | .NotFound => "Record not found"
  | .Other message => message

/-- `ErrorResponse` (src/error.rs lines 6-10): `code` is a `u16` HTTP
status, `description` a string. -/
structure ErrorResponse where
  code : Nat
  description : String
deriving Repr, DecidableEq

/-- Hexadecimal digit character for `\u00XX` escapes. -/
def hexDigit (n : Nat) : Char :=
  if n < 10 then Char.ofNat (48 + n) else Char.ofNat (87 + n)

/-- Modelled from serde_json's string escaping: quote and backslash get a
backslash escape, the control characters BS, TAB, LF, FF, CR get their
short escapes, other control characters get `\u00XX`, and everything else
is emitted as is. -/
def jsonEscapeChar (c : Char) : String :=
  if c.toNat = 34 then "\\\""
  else if c.toNat = 92 then "\\\\"
  else if c.toNat = 8 then "\\b"
  else if c.toNat = 9 then "\\t"
  else if c.toNat = 10 then "\\n"
  else if c.toNat = 12 then "\\f"
  else if c.toNat = 13 then "\\r"
  else if c.toNat < 32 then
    "\\u00" ++ String.singleton (hexDigit (c.toNat / 16))
            ++ String.singleton (hexDigit (c.toNat % 16))
  else String.singleton c

/-- A JSON string literal for `s`, serde_json style. -/
def jsonString (s : String) : String :=
  "\"" ++ String.join (s.toList.map jsonEscapeChar) ++ "\""

/-- The JSON envelope text for a status code and a description: the
serde_json rendering of an `ErrorResponse`. -/
def errorEnvelope (code : Nat) (description : String) : String :=
  "\x7b\"code\":" ++ toString code ++ ",\"description\":"
    ++ jsonString description ++ "\x7d"

/-- Modelled from serde_json: `serde_json::to_string(&res)` for an
`ErrorResponse`.  Serialization of a struct of a `u16` and a `String`
cannot actually fail, so the model always returns `some`; the `Option`
mirrors the `Result` the Rust call sites handle with `unwrap_or_else`. -/
def serde_json_to_string (res : ErrorResponse) : Option String :=
  some (errorEnvelope res.code res.description)

/-- The fixed fallback body each enveloped constructor substitutes when
`serde_json::to_string` fails (src/error.rs, the `unwrap_or_else`
closures). -/
def SERIALIZATION_FALLBACK : String :=
  "\x7b\"code\":500,\"description\":\"Serialization error\"\x7d"

/-- `internal_error` (src/error.rs lines 16-21): any displayable error to
`(500, err.to_string())`.  Note: no JSON envelope is built here. -/
def internal_error (err : String) : Nat × String :=
  (StatusCode.INTERNAL_SERVER_ERROR, err)

/-- `bad_request_error` (src/error.rs lines 37-50): envelope with code
400, falling back to the fixed string if encoding fails. -/
def bad_request_error (err : String) : Nat × String :=
  let res : ErrorResponse :=
    { code := StatusCode.BAD_REQUEST, description := err }
  let res := (serde_json_to_string res).getD SERIALIZATION_FALLBACK
  (StatusCode.BAD_REQUEST, res)

/-- `not_found_error` (src/error.rs lines 54-67): envelope with code
404. -/
def not_found_error (err : String) : Nat × String :=
  let res : ErrorResponse :=
    { code := StatusCode.NOT_FOUND, description := err }
  let res := (serde_json_to_string res).getD SERIALIZATION_FALLBACK
  (StatusCode.NOT_FOUND, res)

/-- `conflict_error` (src/error.rs lines 71-84): envelope with code
409. -/
def conflict_error (err : String) : Nat × String :=
  let res : ErrorResponse :=
    { code := StatusCode.CONFLICT, description := err }
  let res := (serde_json_to_string res).getD SERIALIZATION_FALLBACK
  (StatusCode.CONFLICT, res)

/-- `unprocessable_entity_error` (src/error.rs lines 88-101): envelope
with code 422. -/
def unprocessable_entity_error (err : String) : Nat × String :=
  let res : ErrorResponse :=
    { code := StatusCode.UNPROCESSABLE_ENTITY, description := err }
  let res := (serde_json_to_string res).getD SERIALIZATION_FALLBACK
  (StatusCode.UNPROCESSABLE_ENTITY, res)

/-- `database_error` (src/error.rs lines 24-33): the storage-failure
classifier. -/
def database_error (err : DieselError) : Nat × String :=
  match err with
  | DieselError.NotFound => not_found_error err.to_string
  | DieselError.DatabaseError DatabaseErrorKind.ForeignKeyViolation _ =>
    unprocessable_entity_error err.to_string
  | DieselError.DatabaseError DatabaseErrorKind.UniqueViolation _ =>
    conflict_error err.to_string
  | _ => internal_error err.to_string

/-! ## Validation (validator derive) and route handlers
    (src/api/users/route.rs) -/

/-- `#[derive(Validate)]` on `NewUser` (src/db/models/users.rs line 26)
declares no field-level `#[validate(...)]` attribute on any field, so the
derived `validate()` performs no checks and always returns `Ok(())` —
despite the doc comment on `password` demanding a minimum length and a
compromised-password check. -/
def NewUser.validate (_self : NewUser) : Except String Unit :=
  Except.ok ()

/-- `#[derive(Validate)]` on `UserUpdate` (src/db/models/users.rs line
44) likewise declares no field-level rule, so `validate()` always
succeeds. -/
def UserUpdate.validate (_self : UserUpdate) : Except String Unit :=
  Except.ok ()

/-- Outcome of a handler: `Ok(Json(value))`, `Err((status, body))`, or a
panic of the request task (the `expect("Invalid timestamp")` path). -/
inductive HandlerResult (α : Type) where
  | ok (value : α)
  | err (status : Nat) (body : String)
  | panicked (msg : String)
deriving Repr, DecidableEq

/-- Lift a `(status, body)` pair produced by an error constructor into a
`HandlerResult`. -/
def HandlerResult.ofError (e : Nat × String) : HandlerResult α :=
  HandlerResult.err e.1 e.2

/-- The database state: the `users` table in storage order. -/
abbrev Db := List UserRecord

/-- Result of `app_state.db_pool.get().await`: either a connection or a
pool-acquisition error with its display text. -/
abbrev PoolResult := Except String Unit

/-- Convert a list of fetched rows, panicking (`none`) if any row has a
malformed timestamp — the `record.into()` loop of `list_users`. -/
def records_into_users : List UserRecord → Option (List User)
  | [] => some []
  | r :: rs =>
    match r.into_user with
    | none => none
    | some u => (records_into_users rs).map (fun us => u :: us)

/-- Modelled from the spec: the `users` table schema (src/schema.rs is
declared in main.rs but absent from src/); `id` is the primary key and
`username` is globally unique, both enforced by the store's own
constraints.  An insert colliding on either raises a
`UniqueViolation` database error. -/
def insert_collides (db : Db) (record : UserRecord) : Bool :=
  db.any (fun r => r.username == record.username || r.id == record.id)

/-- `list_users` (src/api/users/route.rs lines 41-51): acquire a
connection (pool failure → `internal_error`), load all rows (storage
order, classified by `database_error` on failure — the load itself is
modelled as succeeding), convert each row. -/
def list_users (pool : PoolResult) (db : Db) : HandlerResult (List User) :=
  match pool with
  | Except.error e => HandlerResult.ofError (internal_error e)
  | Except.ok () =>
    match records_into_users db with
    | none => HandlerResult.panicked "Invalid timestamp"
    | some data => HandlerResult.ok data

/-- `get_user` (src/api/users/route.rs lines 56-72): `first()` on the id
filter returns the first matching row or `Err(DieselError::NotFound)`,
classified by `database_error`. -/
def get_user (pool : PoolResult) (db : Db) (id : String) :
    HandlerResult User :=
  match pool with
  | Except.error e => HandlerResult.ofError (internal_error e)
  | Except.ok () =>
    match db.find? (fun r => r.id == id) with
    | none => HandlerResult.ofError (database_error DieselError.NotFound)
    | some record =>
      match record.into_user with
      | none => HandlerResult.panicked "Invalid timestamp"
      | some user => HandlerResult.ok user

/-- `create_user` (src/api/users/route.rs lines 77-97): validate (→
`bad_request_error`), acquire a connection, map the input to a new record
stamped at `now`, insert it (a unique-constraint collision →
`UniqueViolation` → `database_error`), convert the returned row.  Returns
the response and the resulting table. -/
def create_user (pool : PoolResult) (db : Db) (new_user : NewUser)
    (now : Int) : HandlerResult User × Db :=
  match new_user.validate with
  | Except.error e => (HandlerResult.ofError (bad_request_error e), db)
  | Except.ok () =>
    match pool with
    | Except.error e => (HandlerResult.ofError (internal_error e), db)
    | Except.ok () =>
      let record := new_user.into_new_record now
      if insert_collides db record then
        (HandlerResult.ofError (database_error
          (DieselError.DatabaseError DatabaseErrorKind.UniqueViolation
            "duplicate key value violates unique constraint")), db)
      else
        match record.into_user with
        | none => (HandlerResult.panicked "Invalid timestamp",
                   db ++ [record])
        | some user => (HandlerResult.ok user, db ++ [record])

/-- `update_user` (src/api/users/route.rs lines 102-123): validate,
convert to a changeset stamped at `now`, then
`diesel::update(users).filter(id).set(&update).returning(..).get_result`:
no matching row → `Err(DieselError::NotFound)`; a username collision with
another row → `UniqueViolation`; otherwise every matching row is updated
and the updated row returned. -/
def update_user (pool : PoolResult) (db : Db) (id : String)
    (update : UserUpdate) (now : Int) : HandlerResult User × Db :=
  match update.validate with
  | Except.error e => (HandlerResult.ofError (bad_request_error e), db)
  | Except.ok () =>
    let update : UserUpdateRecord := update.into_update_record now
    match pool with
    | Except.error e => (HandlerResult.ofError (internal_error e), db)
    | Except.ok () =>
      match db.find? (fun r => r.id == id) with
      | none =>
        (HandlerResult.ofError (database_error DieselError.NotFound), db)
      | some record =>
        let collision := match update.username with
          | some u => db.any (fun r => !(r.id == id) && r.username == u)
          | none => false
        if collision then
          (HandlerResult.ofError (database_error
            (DieselError.DatabaseError DatabaseErrorKind.UniqueViolation
              "duplicate key value violates unique constraint")), db)
        else
          let db2 := db.map (fun r =>
            if r.id == id then update.apply r else r)
          match (update.apply record).into_user with
          | none => (HandlerResult.panicked "Invalid timestamp", db2)
          | some user => (HandlerResult.ok user, db2)

/-- First query of `delete_user` (src/api/users/route.rs lines 137-141):
fetch the row by id before deleting, `Err(NotFound)` if absent. -/
def delete_fetch (db : Db) (id : String) : Except DieselError UserRecord :=
  match db.find? (fun r => r.id == id) with
  | none => Except.error DieselError.NotFound
  | some r => Except.ok r

/-- Second query of `delete_user` (src/api/users/route.rs lines 144-147):
`diesel::delete(users.filter(id)).execute` removes the matching rows and
returns the affected-row count; deleting zero rows is not an error. -/
def delete_execute (db : Db) (id : String) : Db × Nat :=
  (db.filter (fun r => !(r.id == id)),
   (db.filter (fun r => r.id == id)).length)

/-- `delete_user` (src/api/users/route.rs lines 128-151): acquire a
connection, fetch the pre-delete snapshot, then delete — two separate
store operations, with no transaction around them. -/
def delete_user (pool : PoolResult) (db : Db) (id : String) :
    HandlerResult User × Db :=
  match pool with
  | Except.error e => (HandlerResult.ofError (internal_error e), db)
  | Except.ok () =>
    match delete_fetch db id with
    | Except.error e => (HandlerResult.ofError (database_error e), db)
    | Except.ok record =>
      let (db2, _count) := delete_execute db id
      match record.into_user with
      | none => (HandlerResult.panicked "Invalid timestamp", db2)
      | some user => (HandlerResult.ok user, db2)

/-- The interleaving of two concurrent `delete_user` calls for the same
id in which both fetches run before either deletion: A fetches, B
fetches, A deletes, B deletes.  Each caller's response is computed from
its own fetch result exactly as in `delete_user`; the final table is the
one after both deletions. -/
def concurrent_delete (db : Db) (id : String) :
    HandlerResult User × HandlerResult User × Db :=
  match delete_fetch db id, delete_fetch db id with
  | Except.error ea, Except.error eb =>
    (HandlerResult.ofError (database_error ea),
     HandlerResult.ofError (database_error eb), db)
  | Except.error ea, Except.ok rb =>
    let (db2, _) := delete_execute db id
    (HandlerResult.ofError (database_error ea),
     match rb.into_user with
     | none => HandlerResult.panicked "Invalid timestamp"
     | some ub => HandlerResult.ok ub,
     db2)
  | Except.ok ra, Except.error eb =>
    let (db2, _) := delete_execute db id
    ((match ra.into_user with
      | none => HandlerResult.panicked "Invalid timestamp"
      | some ua => HandlerResult.ok ua),
     HandlerResult.ofError (database_error eb), db2)
  | Except.ok ra, Except.ok rb =>
    let (db2, _) := delete_execute db id
    let (db3, _) := delete_execute db2 id
    ((match ra.into_user with
      | none => HandlerResult.panicked "Invalid timestamp"
      | some ua => HandlerResult.ok ua),
     (match rb.into_user with
      | none => HandlerResult.panicked "Invalid timestamp"
      | some ub => HandlerResult.ok ub),
     db3)

/-! ## Wire-level deserialization of `UserUpdate` fields -/

/-- A JSON field of a PATCH body as relevant to the update model: absent
from the object, explicit `null`, or a string value.  (Other JSON values
are type errors rejected by serde before the handler runs and play no
role in the claims.) -/
inductive JsonField where
  | missing
  | null
  | str (s : String)
deriving Repr, DecidableEq

/-- Modelled from serde: deserializing `Option<String>` (the `username`
field of `UserUpdate`): a missing field and an explicit `null` both give
`None`; a string gives `Some`. -/
def deserialize_option : JsonField → Option String
  | JsonField.missing => none
  | JsonField.null => none
  | JsonField.str s => some s

/-- Modelled from serde_with `double_option` with `#[serde(default)]`
(the `first_name`/`last_name` fields of `UserUpdate`): missing →
`None`, `null` → `Some(None)`, string → `Some(Some v)`. -/
def deserialize_double_option : JsonField → Option (Option String)
  | JsonField.missing => none
  | JsonField.null => some none
  | JsonField.str s => some (some s)

/-- Deserialize a PATCH body with the given three fields into a
`UserUpdate`, per the serde attributes on the struct. -/
def deserialize_user_update (username first_name last_name : JsonField) :
    UserUpdate :=
  { username := deserialize_option username,
    first_name := deserialize_double_option first_name,
    last_name := deserialize_double_option last_name }

/-! ## Theorems -/

/-- C4: every failure is classified into the closed taxonomy — storage
not-found → 404, unique violation → 409, foreign-key violation → 422,
validation failure → 400 (via `bad_request_error`), and everything else,
including pool-acquisition failure, → 500. -/
theorem error_taxonomy_classification (e : DieselError)
    (msg poolMsg : String) (db : Db) (id : String) :
    (database_error e).1 =
      (match e with
       | DieselError.NotFound => StatusCode.NOT_FOUND
       | DieselError.DatabaseError DatabaseErrorKind.UniqueViolation _ =>
         StatusCode.CONFLICT
       | DieselError.DatabaseError DatabaseErrorKind.ForeignKeyViolation _ =>
         StatusCode.UNPROCESSABLE_ENTITY
       | _ => StatusCode.INTERNAL_SERVER_ERROR)
    ∧ (bad_request_error msg).1 = StatusCode.BAD_REQUEST
    ∧ (internal_error msg).1 = StatusCode.INTERNAL_SERVER_ERROR
    ∧ get_user (Except.error poolMsg) db id
        = HandlerResult.err StatusCode.INTERNAL_SERVER_ERROR poolMsg := by
  refine ⟨?_, rfl, rfl, rfl⟩
  cases e with
  | NotFound => rfl
  | Other m => rfl
  | DatabaseError k m => cases k <;> rfl

/-- C5 counterexample: a failure classified `Internal` does not carry the
JSON envelope — `internal_error` returns the raw error text as the body,
which differs from the envelope the serializer would produce for it (and
from the fixed fallback). -/
theorem internal_error_not_enveloped :
    internal_error "database is on fire" = (500, "database is on fire")
    ∧ (serde_json_to_string
        { code := 500, description := "database is on fire" }).getD
          SERIALIZATION_FALLBACK ≠ "database is on fire"
    ∧ SERIALIZATION_FALLBACK ≠ "database is on fire" := by
  refine ⟨rfl, ?_, ?_⟩ <;> decide

/-- C5 amended: failures classified 400, 404, 409 and 422 return the JSON
envelope body with code and description (with the fixed fallback if its
encoding fails, which for this payload it never does), while failures
classified 500 Internal return the raw error text, not an envelope. -/
theorem error_envelope_shapes (msg : String) :
    bad_request_error msg = (400, errorEnvelope 400 msg)
    ∧ not_found_error msg = (404, errorEnvelope 404 msg)
    ∧ conflict_error msg = (409, errorEnvelope 409 msg)
    ∧ unprocessable_entity_error msg = (422, errorEnvelope 422 msg)
    ∧ internal_error msg = (500, msg) :=
  ⟨rfl, rfl, rfl, rfl, rfl⟩

/-- C8 counterexample: a `CreateInput` carrying `created_at = 5` is
stored with `created_at` equal to the stamp time 1000, not the provided
override. -/
theorem created_at_override_ignored :
    (({ username := "alice", first_name := none, last_name := none,
        password := none, created_at := some 5 } :
        NewUser).into_new_record 1000).created_at = 1000
    ∧ (({ username := "alice", first_name := none, last_name := none,
          password := none, created_at := some 5 } :
          NewUser).into_new_record 1000).created_at ≠ 5 := by
  refine ⟨rfl, ?_⟩; decide

/-- C8 amended: the optional `created_at` of the `CreateInput` is
accepted but ignored; the stored `created_at` (and `updated_at`) of a
created record is always the stamped current time. -/
theorem create_stamps_now (n : NewUser) (now : Int) :
    (n.into_new_record now).created_at = now
    ∧ (n.into_new_record now).updated_at = now :=
  ⟨rfl, rfl⟩

/-- C3: the derived `validate()` enforces none of the documented rules,
so a `CreateInput` with an empty username and the compromised password
"password" passes validation and the insert reaches the store, returning
200 with the created user instead of a 400 `ValidationFailure`; likewise
an `UpdateInput` setting the username to the empty string passes
validation and the mutation reaches the store. -/
theorem create_accepts_invalid_input :
    NewUser.validate
      { username := "", first_name := none, last_name := none,
        password := some "password", created_at := none } = Except.ok ()
    ∧ (create_user (Except.ok ()) []
        { username := "", first_name := none, last_name := none,
          password := some "password", created_at := none } 1000).2
      = [{ id := "dummy-user-1000", username := "", first_name := none,
           last_name := none, updated_at := 1000, created_at := 1000 }]
    ∧ (create_user (Except.ok ()) []
        { username := "", first_name := none, last_name := none,
          password := some "password", created_at := none } 1000).1
      = HandlerResult.ok
          { id := "dummy-user-1000", username := "", first_name := none,
            last_name := none, created_at := 1000, updated_at := 1000 }
    ∧ UserUpdate.validate (⟨some "", none, none⟩ : UserUpdate)
        = Except.ok ()
    ∧ (update_user (Except.ok ())
        [{ id := "u1", username := "alice", first_name := none,
           last_name := none, updated_at := 1000, created_at := 1000 }]
        "u1" (⟨some "", none, none⟩ : UserUpdate) 2000).1
      = HandlerResult.ok
          { id := "u1", username := "", first_name := none,
            last_name := none, created_at := 1000,
            updated_at := 2000 } := by
  refine ⟨rfl, ?_, ?_, rfl, ?_⟩ <;> decide

/-- C2: on a one-row table, the interleaving of two concurrent
`delete_user` calls for the same id in which both fetches precede both
deletions makes both callers observe success, each with the fetched
snapshot — the fetch and the row removal are two separate store
operations, not an atomic unit. -/
theorem concurrent_delete_both_succeed :
    concurrent_delete
      [{ id := "u1", username := "alice", first_name := none,
         last_name := none, updated_at := 1000, created_at := 1000 }] "u1"
      = (HandlerResult.ok
           { id := "u1", username := "alice", first_name := none,
             last_name := none, created_at := 1000, updated_at := 1000 },
         HandlerResult.ok
           { id := "u1", username := "alice", first_name := none,
             last_name := none, created_at := 1000, updated_at := 1000 },
         []) := by
  decide

/-- C1 counterexample: explicitly clearing via a wire `null` works for
`first_name` (it becomes absent) but not for `username`: a PATCH body
with both `username` and `first_name` set to `null` deserializes to a
`UserUpdate` whose username directive is absent, and applying it to a row
with username "alice" and first name "Al" leaves the username "alice"
while clearing the first name — the update input has no cleared state for
username. -/
theorem username_null_not_cleared :
    deserialize_user_update JsonField.null JsonField.null JsonField.missing
      = { username := none, first_name := some none, last_name := none }
    ∧ (((deserialize_user_update JsonField.null JsonField.null
          JsonField.missing).into_update_record 2000).apply
        { id := "u1", username := "alice", first_name := some "Al",
          last_name := none, updated_at := 1000,
          created_at := 1000 }).username = "alice"
    ∧ (((deserialize_user_update JsonField.null JsonField.null
          JsonField.missing).into_update_record 2000).apply
        { id := "u1", username := "alice", first_name := some "Al",
          last_name := none, updated_at := 1000,
          created_at := 1000 }).first_name = none := by
  refine ⟨rfl, rfl, rfl⟩

/-- C1 amended: the update is applied field-by-field; `first_name` and
`last_name` distinguish three states (absent → unchanged, cleared →
absent, set → new value), while `username` distinguishes only two (absent
→ unchanged, set → new value) — a wire `null` username deserializes to
absent, so username cannot be cleared. -/
theorem update_tristate_fields (upd : UserUpdate) (r : UserRecord)
    (now : Int) :
    (upd.username = none →
      ((upd.into_update_record now).apply r).username = r.username)
    ∧ (∀ s, upd.username = some s →
        ((upd.into_update_record now).apply r).username = s)
    ∧ (upd.first_name = none →
        ((upd.into_update_record now).apply r).first_name = r.first_name)
    ∧ (upd.first_name = some none →
        ((upd.into_update_record now).apply r).first_name = none)
    ∧ (∀ s, upd.first_name = some (some s) →
        ((upd.into_update_record now).apply r).first_name = some s)
    ∧ (upd.last_name = none →
        ((upd.into_update_record now).apply r).last_name = r.last_name)
    ∧ (upd.last_name = some none →
        ((upd.into_update_record now).apply r).last_name = none)
    ∧ (∀ s, upd.last_name = some (some s) →
        ((upd.into_update_record now).apply r).last_name = some s)
    ∧ deserialize_option JsonField.null = none
    ∧ deserialize_double_option JsonField.null = some none := by
  obtain ⟨u, f, l⟩ := upd
  exact ⟨fun h => by subst h; rfl,
         fun s h => by subst h; rfl,
         fun h => by subst h; rfl,
         fun h => by subst h; rfl,
         fun s h => by subst h; rfl,
         fun h => by subst h; rfl,
         fun h => by subst h; rfl,
         fun s h => by subst h; rfl,
         rfl, rfl⟩

/-- Witness for the tri-state theorem at a concrete update that sets the
username, clears the first name, and sets the last name. -/
theorem update_tristate_fields_witness :
    ((((⟨some "bob", some none, some (some "Lee")⟩ :
        UserUpdate).into_update_record 2000).apply
      { id := "u1", username := "alice", first_name := some "Al",
        last_name := none, updated_at := 1000,
        created_at := 1000 }).username = "bob")
    ∧ ((((⟨some "bob", some none, some (some "Lee")⟩ :
          UserUpdate).into_update_record 2000).apply
        { id := "u1", username := "alice", first_name := some "Al",
          last_name := none, updated_at := 1000,
          created_at := 1000 }).first_name = none)
    ∧ ((((⟨some "bob", some none, some (some "Lee")⟩ :
          UserUpdate).into_update_record 2000).apply
        { id := "u1", username := "alice", first_name := some "Al",
          last_name := none, updated_at := 1000,
          created_at := 1000 }).last_name = some "Lee") := by
  have h := update_tristate_fields
    (⟨some "bob", some none, some (some "Lee")⟩ : UserUpdate)
    { id := "u1", username := "alice", first_name := some "Al",
      last_name := none, updated_at := 1000, created_at := 1000 } 2000
  exact ⟨h.2.1 "bob" rfl, h.2.2.2.1 rfl, h.2.2.2.2.2.2.2.1 "Lee" rfl⟩

/-- C6 counterexample: an update stamped in the same millisecond as the
row's current `updated_at` leaves `updated_at` equal, not strictly
greater, than its value before the update. -/
theorem same_millisecond_update_not_strict :
    ¬ ((((⟨none, none, none⟩ : UserUpdate).into_update_record 1000).apply
        { id := "u1", username := "alice", first_name := none,
          last_name := none, updated_at := 1000,
          created_at := 500 }).updated_at
      > ({ id := "u1", username := "alice", first_name := none,
           last_name := none, updated_at := 1000,
           created_at := 500 } : UserRecord).updated_at) := by
  decide

/-- C6 amended: every update stamps `updated_at` to the update's current
time, which is strictly greater than the previous `updated_at` exactly
when the clock has advanced past it, and `created_at` is never touched by
an update. -/
theorem update_timestamps (upd : UserUpdate) (r : UserRecord) (now : Int)
    (h : r.updated_at < now) :
    ((upd.into_update_record now).apply r).updated_at = now
    ∧ r.updated_at < ((upd.into_update_record now).apply r).updated_at
    ∧ ((upd.into_update_record now).apply r).created_at = r.created_at :=
  ⟨rfl, h, rfl⟩

/-- Witness for the update-timestamp theorem at a concrete row stamped at
1000 and an update at 2000. -/
theorem update_timestamps_witness :
    ((((⟨none, none, none⟩ : UserUpdate).into_update_record 2000).apply
      { id := "u1", username := "alice", first_name := none,
        last_name := none, updated_at := 1000,
        created_at := 1000 }).updated_at = 2000)
    ∧ (({ id := "u1", username := "alice", first_name := none,
          last_name := none, updated_at := 1000,
          created_at := 1000 } : UserRecord).updated_at
        < (((⟨none, none, none⟩ : UserUpdate).into_update_record
            2000).apply
           { id := "u1", username := "alice", first_name := none,
             last_name := none, updated_at := 1000,
             created_at := 1000 }).updated_at)
    ∧ ((((⟨none, none, none⟩ : UserUpdate).into_update_record 2000).apply
        { id := "u1", username := "alice", first_name := none,
          last_name := none, updated_at := 1000,
          created_at := 1000 }).created_at = 1000) :=
  update_timestamps (⟨none, none, none⟩ : UserUpdate)
    { id := "u1", username := "alice", first_name := none,
      last_name := none, updated_at := 1000, created_at := 1000 }
    2000 (by decide)

/-- After deleting every row with a given id, no row with that id
remains to be found. -/
theorem find_after_delete (db : Db) (id : String) :
    (db.filter (fun r => !(r.id == id))).find? (fun r => r.id == id)
      = none := by
  induction db with
  | nil => rfl
  | cons r rs ih =>
    cases hb : (r.id == id) with
    | true => simp [List.filter_cons, hb, ih]
    | false => simp [List.filter_cons, hb, List.find?_cons, ih]

/-- C7: on an id with no matching row, `get_user`, `update_user` and
`delete_user` all fail with the classified NotFound (404) response and
leave the table unchanged; on an existing id, `delete_user` returns the
row exactly as it stood before removal, and a subsequent `get_user` of
that id fails NotFound. -/
theorem missing_id_and_delete_snapshot (db : Db) (id : String)
    (upd : UserUpdate) (now : Int) :
    (db.find? (fun r => r.id == id) = none →
      get_user (Except.ok ()) db id
        = HandlerResult.err StatusCode.NOT_FOUND
            (database_error DieselError.NotFound).2
      ∧ update_user (Except.ok ()) db id upd now
        = (HandlerResult.err StatusCode.NOT_FOUND
             (database_error DieselError.NotFound).2, db)
      ∧ delete_user (Except.ok ()) db id
        = (HandlerResult.err StatusCode.NOT_FOUND
             (database_error DieselError.NotFound).2, db))
    ∧ (∀ r u, db.find? (fun r => r.id == id) = some r →
        r.into_user = some u →
        (delete_user (Except.ok ()) db id).1 = HandlerResult.ok u
        ∧ get_user (Except.ok ()) (delete_user (Except.ok ()) db id).2 id
            = HandlerResult.err StatusCode.NOT_FOUND
                (database_error DieselError.NotFound).2) := by
  constructor
  · intro h
    refine ⟨?_, ?_, ?_⟩
    · simp [get_user, h]; rfl
    · simp [update_user, UserUpdate.validate, h]; rfl
    · simp [delete_user, delete_fetch, h]; rfl
  · intro r u hr hu
    have hd : delete_user (Except.ok ()) db id
        = (HandlerResult.ok u, db.filter (fun r => !(r.id == id))) := by
      simp [delete_user, delete_fetch, delete_execute, hr, hu]
    refine ⟨by rw [hd], ?_⟩
    rw [hd]
    simp only [get_user]
    rw [find_after_delete]
    rfl

/-- Witness for the NotFound/delete-snapshot theorem: on the empty table
every operation on "u1" is NotFound, and on a one-row table the delete
returns the stored row and the follow-up get is NotFound. -/
theorem missing_id_and_delete_snapshot_witness :
    get_user (Except.ok ()) [] "u1"
      = HandlerResult.err StatusCode.NOT_FOUND
          (database_error DieselError.NotFound).2
    ∧ (delete_user (Except.ok ())
        [{ id := "u1", username := "alice", first_name := none,
           last_name := none, updated_at := 1000,
           created_at := 1000 }] "u1").1
      = HandlerResult.ok
          { id := "u1", username := "alice", first_name := none,
            last_name := none, created_at := 1000, updated_at := 1000 }
    ∧ get_user (Except.ok ())
        (delete_user (Except.ok ())
          [{ id := "u1", username := "alice", first_name := none,
             last_name := none, updated_at := 1000,
             created_at := 1000 }] "u1").2 "u1"
      = HandlerResult.err StatusCode.NOT_FOUND
          (database_error DieselError.NotFound).2 := by
  have hmiss := (missing_id_and_delete_snapshot [] "u1"
    (⟨none, none, none⟩ : UserUpdate) 0).1 rfl
  have hdel := (missing_id_and_delete_snapshot
    [{ id := "u1", username := "alice", first_name := none,
       last_name := none, updated_at := 1000, created_at := 1000 }] "u1"
    (⟨none, none, none⟩ : UserUpdate) 0).2
    { id := "u1", username := "alice", first_name := none,
      last_name := none, updated_at := 1000, created_at := 1000 }
    { id := "u1", username := "alice", first_name := none,
      last_name := none, created_at := 1000, updated_at := 1000 }
    rfl (by decide)
  exact ⟨hmiss.1, hdel.1, hdel.2⟩

/-- C9: converting a stored row to a `User` fails (panics) exactly when
one of its epoch-millisecond timestamps is outside the representable
range; every record produced by create parses, and updating any record
that parses yields a record that still parses — so under the write
invariant the failure branch is unreachable. -/
theorem timestamp_parse_safety (r : UserRecord) (n : NewUser)
    (upd : UserUpdate) (now : Int)
    (h1 : jiffMinMillis ≤ now) (h2 : now ≤ jiffMaxMillis) :
    (r.into_user = none ↔
      (timestampFromMillisecond r.created_at = none
       ∨ timestampFromMillisecond r.updated_at = none))
    ∧ ((n.into_new_record now).into_user).isSome
    ∧ (∀ u, r.into_user = some u →
        (((upd.into_update_record now).apply r).into_user).isSome) := by
  refine ⟨?_, ?_, ?_⟩
  · cases hc : timestampFromMillisecond r.created_at <;>
      cases hup : timestampFromMillisecond r.updated_at <;>
      simp [UserRecord.into_user, hc, hup]
  · simp [NewUser.into_new_record, UserRecord.into_user,
          timestampFromMillisecond, h1, h2]
  · intro u hu
    cases hc : timestampFromMillisecond r.created_at with
    | none => simp [UserRecord.into_user, hc] at hu
    | some c =>
      have hnow : timestampFromMillisecond now = some now := by
        simp [timestampFromMillisecond, h1, h2]
      simp [UserRecord.into_user, UserUpdateRecord.apply,
            UserUpdate.into_update_record, hc, hnow]

/-- Witness for the timestamp-parse theorem: a record created at time
1000 parses back into a `User`. -/
theorem timestamp_parse_safety_witness :
    ((({ username := "alice", first_name := none, last_name := none,
         password := none, created_at := none } :
         NewUser).into_new_record 1000).into_user).isSome :=
  (timestamp_parse_safety
    { id := "u1", username := "a", first_name := none, last_name := none,
      updated_at := 1000, created_at := 1000 }
    { username := "alice", first_name := none, last_name := none,
      password := none, created_at := none }
    (⟨none, none, none⟩ : UserUpdate) 1000
    (by decide) (by decide)).2.1

/-- C10: two create inputs that agree on everything but the password map
to the same stored record and produce identical `create_user` outcomes —
the password is discarded during mapping and never persisted or echoed
back. -/
theorem password_noninterference (a b : NewUser) (now : Int)
    (pool : PoolResult) (db : Db)
    (h1 : a.username = b.username) (h2 : a.first_name = b.first_name)
    (h3 : a.last_name = b.last_name) (_h4 : a.created_at = b.created_at) :
    a.into_new_record now = b.into_new_record now
    ∧ create_user pool db a now = create_user pool db b now := by
  have hrec : a.into_new_record now = b.into_new_record now := by
    unfold NewUser.into_new_record
    rw [h1, h2, h3]
  refine ⟨hrec, ?_⟩
  cases pool <;> simp [create_user, NewUser.validate, hrec]

/-- Witness for password noninterference: the same input with password
"hunter2" and with no password at all create the same record and get the
same response. -/
theorem password_noninterference_witness :
    ({ username := "alice", first_name := none, last_name := none,
       password := some "hunter2", created_at := none } :
       NewUser).into_new_record 1000
      = ({ username := "alice", first_name := none, last_name := none,
           password := none, created_at := none } :
           NewUser).into_new_record 1000
    ∧ create_user (Except.ok ()) []
        ({ username := "alice", first_name := none, last_name := none,
           password := some "hunter2", created_at := none } : NewUser) 1000
      = create_user (Except.ok ()) []
          ({ username := "alice", first_name := none, last_name := none,
             password := none, created_at := none } : NewUser) 1000 :=
  password_noninterference
    { username := "alice", first_name := none, last_name := none,
      password := some "hunter2", created_at := none }
    { username := "alice", first_name := none, last_name := none,
      password := none, created_at := none }
    1000 (Except.ok ()) [] rfl rfl rfl rfl

end Microaxum
